import Mathlib

/-!
Verification of the EDBG protocol-stack driver: packet framing with
sequence correlation, sub-protocol discovery, AVR8Generic response
decoding, and the halt operation, translated from
`src/probe-rs/src/probe/edbg/mod.rs` and
`src/probe-rs/src/architecture/avr/mod.rs`.

Conventions: bytes are `Nat` values below 256; a `panic!`, failed
`unwrap`/`expect`, or out-of-bounds slice in the source is modelled as
`none` (or a dedicated error constructor where the session state
matters); the `u16` sequence counter is a `Nat` reduced modulo 65536
where the source's wrapping arithmetic applies.
-/

namespace EDBG

/-- Start-of-frame sentinel byte (`EDBG_SOF` in the source). -/
def EDBG_SOF : Nat := 0x0E

/-- Sub-protocol namespace identifiers (`SubProtocols` in the source). -/
inductive SubProtocols where
  | Discovery
  | Housekeeping
  | AVRISP
  | AVR8Generic
  | AVR32Generic
  | TPI
  | EDBGCtrl
deriving DecidableEq, Repr

/-- Numeric discriminant of each sub-protocol id, as fixed by the
`SubProtocols` enum of the source. -/
def SubProtocols.toU8 : SubProtocols → Nat
  | .Discovery => 0x00
  | .Housekeeping => 0x01
  | .AVRISP => 0x11
  | .AVR8Generic => 0x12
  | .AVR32Generic => 0x13
  | .TPI => 0x14
  | .EDBGCtrl => 0x20

/-- `SubProtocols::from_u8`, the decode direction derived by the
`Primitive` attribute in the source. -/
def SubProtocols.from_u8 : Nat → Option SubProtocols
  | 0x00 => some .Discovery
  | 0x01 => some .Housekeeping
  | 0x11 => some .AVRISP
  | 0x12 => some .AVR8Generic
  | 0x13 => some .AVR32Generic
  | 0x14 => some .TPI
  | 0x20 => some .EDBGCtrl
  | _ => none

/-- Driver session fields relevant to framing (`EDBG` struct). -/
structure EDBGState where
  speed_khz : Nat
  sequence_number : Nat
deriving DecidableEq, Repr

/-- `EDBG::new_from_device`: the freshly created session state. -/
def new_from_device : EDBGState :=
  { speed_khz := 1000, sequence_number := 0 }

/-- The outbound frame built at the head of `EDBG::send_command`:
`[EDBG_SOF, 0x00, seq & 0xff, seq >> 8, sub_protocol_id]` followed by
the command packet bytes. -/
def encode_frame (sub_protocol_id : Nat) (sequence_number : Nat)
    (command_packet : List Nat) : List Nat :=
  [EDBG_SOF, 0x00, sequence_number % 256, sequence_number / 256 % 256,
    sub_protocol_id] ++ command_packet

/-- Failure modes of the response-validation half of
`EDBG::send_command`. Each is an abort in the source (`panic!` or a
failed `expect`/slice); spec taxonomy classifies the start-marker and
sequence mismatches as protocol violations. -/
inductive ProcessError where
  | emptyResponse
  | sequenceReadFailed
  | wrongSof
  | wrongSequenceNumber
  | envelopeTooShort
deriving DecidableEq, Repr

/-- The response-validation and envelope-stripping half of
`EDBG::send_command`: checks that byte 0 equals `EDBG_SOF`, reads the
little-endian `u16` at offset 1 and compares it with the session's
sequence number, then advances the counter (wrapping `u16` increment)
and drains the first four bytes. The pair carries the result together
with the sequence counter after the call; on an abort taken before the
increment the counter is unchanged. -/
def receive_frame (sequence_number : Nat) (rsp : List Nat) :
    Except ProcessError (List Nat) × Nat :=
  match rsp with
  | [] => (.error .emptyResponse, sequence_number)
  | b0 :: rest =>
    if b0 ≠ EDBG_SOF then
      (.error .wrongSof, sequence_number)
    else
      match rest with
      | b1 :: b2 :: tail =>
        if b1 + 256 * b2 ≠ sequence_number then
          (.error .wrongSequenceNumber, sequence_number)
        else
          match tail with
          | [] => (.error .envelopeTooShort, (sequence_number + 1) % 65536)
          | _ :: payload => (.ok payload, (sequence_number + 1) % 65536)
      | _ => (.error .sequenceReadFailed, sequence_number)

/-- Modelled from the spec: the discriminant shapes of the AVR8Generic
response decoder. The `Avr8GenericResponses` enum lives in the
`avr8generic` module, which is not among the available sources; the
spec fixes five tags — Success, List, Data, ProgramCounter, Failed —
each one fixed leading byte, whose numeric values are not recorded
here, so the decode map is passed as a parameter where needed. -/
inductive Avr8GenericResponses where
  | StatusOk
  | List
  | Data
  | Pc
  | Failed
deriving DecidableEq, Repr

/-- Modelled from the spec: the AVR8Generic failure-code enumeration
(`Avr8GenericFailureCodes`, in the missing `avr8generic` module); the
spec names only the `Unknown` code explicitly. -/
inductive Avr8GenericFailureCodes where
  | Unknown
deriving DecidableEq, Repr

/-- The typed response variants (`Avr8GenericResponse` in the source). -/
inductive Avr8GenericResponse where
  | Ok
  | List (bytes : List Nat)
  | Data (bytes : List Nat)
  | Pc (pc : Nat)
  | Failed (code : Avr8GenericFailureCodes)
deriving DecidableEq, Repr

/-- Little-endian unsigned 32-bit read at offset 2
(`response.pread_with::<u32>(2, LE)` in the source); only consulted
under the length guard of `parse_response`. -/
def readU32LE2 (response : List Nat) : Nat :=
  response.getD 2 0 + 256 * response.getD 3 0 + 65536 * response.getD 4 0 +
    16777216 * response.getD 5 0

/-- `Avr8GenericResponse::parse_response`, dispatching on the leading
byte. The two derived `from_u8` decode tables are parameters because
their enumerations live in the missing `avr8generic` module. Source
panics — indexing an empty slice, a failed `unwrap` on an unknown tag
or failure code, a slice range beyond the buffer, a short `pread` —
are modelled as `none`. -/
def parse_response (tagOf : Nat → Option Avr8GenericResponses)
    (failureCodeOf : Nat → Option Avr8GenericFailureCodes)
    (response : List Nat) : Option Avr8GenericResponse :=
  match response with
  | [] => none
  | b0 :: _ =>
    match tagOf b0 with
    | none => none
    | some .StatusOk => some .Ok
    | some .List =>
      if 2 ≤ response.length then some (.List (response.drop 2)) else none
    | some .Data =>
      match response.getLast? with
      | none => none
      | some last =>
        if last = 0 then
          if 3 ≤ response.length then
            some (.Data ((response.drop 2).dropLast))
          else none
        else some (.Failed .Unknown)
    | some .Pc =>
      if 6 ≤ response.length then some (.Pc (readU32LE2 response)) else none
    | some .Failed =>
      match response.drop 2 with
      | [] => none
      | c :: _ => (failureCodeOf c).map .Failed

/-- Modelled from the spec: a sample assignment of distinct response
discriminant bytes, used only to evaluate the parameterised decoder on
concrete inputs (the spec fixes that each tag is one fixed byte but
does not record the numeric values). -/
def sampleTagOf : Nat → Option Avr8GenericResponses
  | 0x80 => some .StatusOk
  | 0x81 => some .List
  | 0x84 => some .Data
  | 0x83 => some .Pc
  | 0xA0 => some .Failed
  | _ => none

/-- Modelled from the spec: a sample failure-code decode table for
concrete evaluation. -/
def sampleFailureCodeOf : Nat → Option Avr8GenericFailureCodes
  | 0xFF => some .Unknown
  | _ => none

/-- `Jtagice3DiscoveryResponses::RspDiscoveryList` in the source. -/
def RspDiscoveryList : Nat := 0x81

/-- The decode loop of `EDBG::discover_protocols`: each id byte is
pushed through `SubProtocols::from_u8`, and a failed decode is an
`unwrap` panic (`none`). -/
def decode_sub_protocols : List Nat → Option (List SubProtocols)
  | [] => some []
  | b :: bs =>
    match SubProtocols.from_u8 b, decode_sub_protocols bs with
    | some p, some ps => some (p :: ps)
    | _, _ => none

/-- The response-handling half of `EDBG::discover_protocols`: when the
leading byte is the discovery-list tag, every byte from offset 2 onward
is decoded through `SubProtocols::from_u8`; any other leading byte
reaches the `unimplemented!` arm, modelled `none`; so is indexing or
slicing a response shorter than two bytes. -/
def discover_parse (rsp : List Nat) : Option (List SubProtocols) :=
  match rsp with
  | [] => none
  | b0 :: rest =>
    if b0 = RspDiscoveryList then
      match rest with
      | _ :: ids => decode_sub_protocols ids
      | [] => none
    else none

/-- `CoreInformation` as produced by `EDBG::halt` (`{ pc }`). -/
structure CoreInformation where
  pc : Nat
deriving DecidableEq, Repr

/-- `EDBG::halt`: sends a Stop command and discards its result, then
sends PcRead; a `Pc` response yields `CoreInformation`, a transport
error propagates, and any other response shape panics (`none`). The
`timeout` argument is carried but never consulted — the source marks
this with a FIXME. The two `Except` arguments stand in for the probe's
responses to the Stop and PcRead commands. -/
def halt (timeout : Nat)
    (stopResult pcReadResult : Except ProcessError Avr8GenericResponse) :
    Option (Except ProcessError CoreInformation) :=
  match timeout, stopResult, pcReadResult with
  | _, _, .error e => some (.error e)
  | _, _, .ok (.Pc pc) => some (.ok { pc := pc })
  | _, _, .ok _ => none

/-- `AvrWireProtocol`: the four physical wire modes enumerated in the
source (JTAG, debugWIRE, PDI, UPDI). -/
inductive AvrWireProtocol where
  | Jtag
  | DebugWire
  | Pdi
  | Updi
deriving DecidableEq, Repr

/-- Modelled from the spec: the Set/Get context enumeration
(`Avr8GenericSetGetContexts`, in the missing `avr8generic` module);
only the configuration context is exercised here. -/
inductive Avr8GenericSetGetContexts where
  | Config
deriving DecidableEq, Repr

/-- Modelled from the spec: parameter slots of the configuration
context (`Avr8GenericConfigContextParameters`, missing `avr8generic`
module); only the physical-variant slot is exercised here. -/
inductive Avr8GenericConfigContextParameters where
  | Variant
deriving DecidableEq, Repr

/-- Modelled from the spec: the physical wire-variant values
(`Avr8GenericVariantValues`, missing `avr8generic` module), one per
enumerated wire mode. -/
inductive Avr8GenericVariantValues where
  | Jtag
  | DebugWire
  | Pdi
  | Updi
deriving DecidableEq, Repr

/-- The arguments `EDBG::select_protocol` hands to `avr8generic_set`:
the context, the parameter address, and the variant value placed in the
single data byte. Modelled from the spec at the argument type: the
source signature takes the crate-wide wire-protocol type, declared
outside the available sources and described by the spec as one of four
enumerated wire variants, so the source's own four-variant
`AvrWireProtocol` stands in for it. The body passes
`Avr8GenericVariantValues::Updi` whatever the argument is. -/
def select_protocol (protocol : AvrWireProtocol) :
    Avr8GenericSetGetContexts × Avr8GenericConfigContextParameters ×
      Avr8GenericVariantValues :=
  match protocol with
  | _ => (.Config, .Variant, .Updi)

/-- Decode is a left inverse of encode on the sub-protocol ids. -/
theorem SubProtocols.from_u8_toU8 (p : SubProtocols) :
    SubProtocols.from_u8 p.toU8 = some p := by
  cases p <;> rfl

/-- C1 counterexample: a response frame whose bytes 2-3 read
little-endian (here 0x1200 = 4608) differ from the request's sequence
number 5 is nevertheless accepted, its payload returned and the counter
advanced, because the source compares the `u16` at offset 1 — bytes
1-2 — against the sequence number. -/
theorem c1_counterexample :
    (0x00 + 256 * 0x12 : Nat) ≠ 5 ∧
    receive_frame 5 [0x0E, 0x05, 0x00, 0x12, 0xAB] = (.ok [0xAB], 6) := by
  exact ⟨by decide, rfl⟩

/-- C1 (amended): the sequence number embedded at bytes 1-2 of the
response envelope, little-endian, must equal the sequence number of the
request just sent; otherwise the exchange fails with the
sequence-mismatch protocol violation (an abort in the reference), no
payload is returned, and the counter is unchanged. -/
theorem c1_sequence_mismatch_rejected (seq b1 b2 : Nat) (tail : List Nat)
    (h : b1 + 256 * b2 ≠ seq) :
    receive_frame seq (EDBG_SOF :: b1 :: b2 :: tail) =
      (.error .wrongSequenceNumber, seq) := by
  simp [receive_frame, h]

/-- C1 witness: concrete rejected exchange. -/
theorem c1_sequence_mismatch_rejected_witness :
    (7 + 256 * 0 : Nat) ≠ 9 ∧
    receive_frame 9 [0x0E, 7, 0, 0x12, 0xCD] =
      (.error .wrongSequenceNumber, 9) :=
  ⟨by decide, c1_sequence_mismatch_rejected 9 7 0 [0x12, 0xCD] (by decide)⟩

/-- C2: a response frame whose leading byte is not the start-of-frame
sentinel is rejected — the protocol violation the source surfaces as
the wrong-SOF abort — with no payload returned, and the sequence
counter holds the same value after the failed exchange as before. -/
theorem c2_wrong_sof_rejected (seq b0 : Nat) (rest : List Nat)
    (h : b0 ≠ EDBG_SOF) :
    receive_frame seq (b0 :: rest) = (.error .wrongSof, seq) := by
  simp [receive_frame, h]

/-- C2 witness: concrete corrupted start marker. -/
theorem c2_wrong_sof_rejected_witness :
    (0x00 : Nat) ≠ EDBG_SOF ∧
    receive_frame 3 [0x00, 3, 0, 0x12] = (.error .wrongSof, 3) :=
  ⟨by decide, c2_wrong_sof_rejected 3 0x00 [3, 0, 0x12] (by decide)⟩

/-- C3: for every response frame accepted by the validation step,
stripping the envelope and then re-encoding the resulting payload with
the same sequence number and sub-protocol id reproduces the original
frame's payload bytes exactly. -/
theorem c3_decode_encode_payload (seq sub_protocol_id s2 : Nat)
    (rsp payload : List Nat)
    (h : receive_frame seq rsp = (.ok payload, s2)) :
    (encode_frame sub_protocol_id seq payload).drop 5 = rsp.drop 4 := by
  have henc : (encode_frame sub_protocol_id seq payload).drop 5 = payload := rfl
  rw [henc]
  rcases rsp with _ | ⟨b0, _ | ⟨b1, _ | ⟨b2, _ | ⟨b3, tail⟩⟩⟩⟩ <;>
    simp only [receive_frame] at h <;>
    first
      | (split_ifs at h <;> simp_all)
      | simp_all

/-- C3 witness: concrete round trip. -/
theorem c3_decode_encode_payload_witness :
    (encode_frame 0x12 0 [0xAA]).drop 5 =
      ([0x0E, 0, 0, 0x12, 0xAA] : List Nat).drop 4 :=
  c3_decode_encode_payload 0 0x12 1 [0x0E, 0, 0, 0x12, 0xAA] [0xAA] rfl

/-- C4: for every sub-protocol id, in-range sequence number and
payload, the encoded outbound frame is exactly the five header bytes —
sentinel 0x0E, reserved 0x00, sequence low byte, sequence high byte,
sub-protocol id — followed by the payload bytes unchanged. -/
theorem c4_encode_frame_layout (sub_protocol : SubProtocols)
    (seq : Nat) (payload : List Nat) (h : seq < 65536) :
    encode_frame sub_protocol.toU8 seq payload =
      [0x0E, 0x00, seq % 256, seq / 256, sub_protocol.toU8] ++ payload := by
  have h2 : seq / 256 < 256 := by omega
  simp [encode_frame, EDBG_SOF, Nat.mod_eq_of_lt h2]

/-- C4 witness: concrete frame layout. -/
theorem c4_encode_frame_layout_witness :
    (0x1234 : Nat) < 65536 ∧
    encode_frame SubProtocols.AVR8Generic.toU8 0x1234 [0xDE, 0xAD] =
      [0x0E, 0x00, 0x1234 % 256, 0x1234 / 256,
        SubProtocols.AVR8Generic.toU8] ++ [0xDE, 0xAD] :=
  ⟨by decide,
    c4_encode_frame_layout SubProtocols.AVR8Generic 0x1234 [0xDE, 0xAD]
      (by decide)⟩

/-- C5: a response whose leading byte carries the Data tag is
classified by its final inline status byte: zero yields the bytes
strictly between the echoed header and the status byte as `Data`,
anything else yields `Failed Unknown`. -/
theorem c5_data_inline_status
    (tagOf : Nat → Option Avr8GenericResponses)
    (failureCodeOf : Nat → Option Avr8GenericFailureCodes)
    (t b1 st : Nat) (mid : List Nat) (h : tagOf t = some .Data) :
    parse_response tagOf failureCodeOf (t :: b1 :: (mid ++ [st])) =
      if st = 0 then some (.Data mid) else some (.Failed .Unknown) := by
  have hlast : (t :: b1 :: (mid ++ [st])).getLast? = some st := by
    rw [show t :: b1 :: (mid ++ [st]) = (t :: b1 :: mid) ++ [st] by simp]
    exact List.getLast?_concat _
  have hdl : (mid ++ [st]).dropLast = mid := List.dropLast_concat ..
  have hlen : 3 ≤ (t :: b1 :: (mid ++ [st])).length := by
    simp
  simp [parse_response, h, hlast, hdl, hlen]

/-- C5 witness: the sample inputs of the claim, under the sample
discriminant table. -/
theorem c5_data_inline_status_witness :
    sampleTagOf 0x84 = some .Data ∧
    parse_response sampleTagOf sampleFailureCodeOf
      [0x84, 0x00, 0xAA, 0xBB, 0x00] = some (.Data [0xAA, 0xBB]) ∧
    parse_response sampleTagOf sampleFailureCodeOf
      [0x84, 0x00, 0xAA, 0xBB, 0x01] = some (.Failed .Unknown) := by
  refine ⟨rfl, ?_, ?_⟩
  · have h := c5_data_inline_status sampleTagOf sampleFailureCodeOf
      0x84 0x00 0x00 [0xAA, 0xBB] rfl
    simpa using h
  · have h := c5_data_inline_status sampleTagOf sampleFailureCodeOf
      0x84 0x00 0x01 [0xAA, 0xBB] rfl
    simpa using h

/-- C6: a discovery response whose leading byte is the discovery-list
tag decodes the bytes from offset 2 onward, in order, through the
sub-protocol enumeration; the sample response 0x81 0x00 0x01 0x12
yields [Housekeeping, AVR8Generic]; an unknown id byte (0x02) is a
fatal decode failure, not skipped or defaulted. -/
theorem c6_discover_list (ps : List SubProtocols) (b1 : Nat) :
    discover_parse (0x81 :: b1 :: ps.map SubProtocols.toU8) = some ps ∧
    discover_parse [0x81, 0x00, 0x01, 0x12] =
      some [SubProtocols.Housekeeping, SubProtocols.AVR8Generic] ∧
    discover_parse [0x81, 0x00, 0x01, 0x02] = none := by
  refine ⟨?_, rfl, rfl⟩
  have hmap : decode_sub_protocols (ps.map SubProtocols.toU8) =
      some ps := by
    induction ps with
    | nil => rfl
    | cons p ps ih =>
      simp [decode_sub_protocols, SubProtocols.from_u8_toU8, ih]
  simp [discover_parse, RspDiscoveryList, hmap]

/-- C7: the sequence counter starts at 0 in a fresh session and
advances by exactly one modulo 65536 after each successful exchange,
including the wrap from 65535 back to 0 on a successful frame rather
than a failure at the 2^16 boundary. -/
theorem c7_sequence_counter (seq s2 : Nat) (rsp payload : List Nat)
    (h : receive_frame seq rsp = (.ok payload, s2)) :
    new_from_device.sequence_number = 0 ∧
    s2 = (seq + 1) % 65536 ∧
    receive_frame 65535 [0x0E, 0xFF, 0xFF, 0x12] = (.ok [], 0) := by
  refine ⟨rfl, ?_, rfl⟩
  rcases rsp with _ | ⟨b0, _ | ⟨b1, _ | ⟨b2, _ | ⟨b3, tail⟩⟩⟩⟩ <;>
    simp only [receive_frame] at h <;>
    first
      | (split_ifs at h <;> simp_all)
      | simp_all

/-- C7 witness: a concrete successful exchange advancing 0 to 1. -/
theorem c7_sequence_counter_witness :
    new_from_device.sequence_number = 0 ∧
    (1 : Nat) = (0 + 1) % 65536 ∧
    receive_frame 65535 [0x0E, 0xFF, 0xFF, 0x12] = (.ok [], 0) :=
  c7_sequence_counter 0 1 [0x0E, 0, 0, 0x12] [] rfl

/-- C8: whatever the timeout bound and whatever the (discarded) Stop
response, `halt` returns a successful `CoreInformation` as soon as
PcRead answers with a program counter — it never polls halted state and
never produces a timeout failure, even against a target that never
halts, contradicting the halt contract documented on the core
interface. -/
theorem c8_halt_ignores_timeout (timeout : Nat)
    (stopResult : Except ProcessError Avr8GenericResponse) :
    halt timeout stopResult (.ok (.Pc 0x10)) =
      some (.ok { pc := 0x10 }) := by
  cases stopResult <;> rfl

/-- C9 counterexample: two distinct wire-protocol arguments configure
the identical variant value, refuting that different arguments produce
different configured variants. -/
theorem c9_counterexample :
    AvrWireProtocol.Jtag ≠ AvrWireProtocol.Pdi ∧
    select_protocol AvrWireProtocol.Jtag =
      select_protocol AvrWireProtocol.Pdi :=
  ⟨by decide, rfl⟩

/-- C9 (amended): for every wire-protocol argument, `select_protocol`
issues a Set against the configuration context's variant parameter
carrying the UPDI variant value, regardless of the argument. -/
theorem c9_select_protocol_updi (protocol : AvrWireProtocol) :
    select_protocol protocol =
      (Avr8GenericSetGetContexts.Config,
        Avr8GenericConfigContextParameters.Variant,
        Avr8GenericVariantValues.Updi) := rfl

/-- C10: `parse_response` is partial at the decode boundary — it
panics (modelled `none`) on an empty slice, on an unknown leading
discriminant, and on tagged slices shorter than the arm's indexing:
fewer than 6 bytes for a ProgramCounter response, fewer than 3 for a
Failed response, fewer than 2 for a List response. -/
theorem c10_parse_response_unguarded
    (tagOf : Nat → Option Avr8GenericResponses)
    (failureCodeOf : Nat → Option Avr8GenericFailureCodes)
    (resp : List Nat) :
    parse_response tagOf failureCodeOf [] = none ∧
    (∀ b0, resp.head? = some b0 → tagOf b0 = none →
      parse_response tagOf failureCodeOf resp = none) ∧
    (∀ b0, resp.head? = some b0 → tagOf b0 = some .Pc →
      resp.length < 6 → parse_response tagOf failureCodeOf resp = none) ∧
    (∀ b0, resp.head? = some b0 → tagOf b0 = some .Failed →
      resp.length < 3 → parse_response tagOf failureCodeOf resp = none) ∧
    (∀ b0, resp.head? = some b0 → tagOf b0 = some .List →
      resp.length < 2 → parse_response tagOf failureCodeOf resp = none) := by
  refine ⟨rfl, ?_, ?_, ?_, ?_⟩ <;>
    rintro b0 hhead htag
  · rcases resp with _ | ⟨c0, rest⟩
    · simp at hhead
    · simp only [List.head?_cons, Option.some.injEq] at hhead
      subst hhead
      simp [parse_response, htag]
  · intro hlen
    rcases resp with _ | ⟨c0, rest⟩
    · simp at hhead
    · simp only [List.head?_cons, Option.some.injEq] at hhead
      subst hhead
      simp only [parse_response, htag]
      rw [if_neg (by omega)]
  · intro hlen
    rcases resp with _ | ⟨c0, rest⟩
    · simp at hhead
    · simp only [List.head?_cons, Option.some.injEq] at hhead
      subst hhead
      have hdrop : (c0 :: rest).drop 2 = [] := by
        apply List.drop_eq_nil_of_le
        simp only [List.length_cons] at hlen ⊢
        omega
      simp [parse_response, htag, hdrop]
  · intro hlen
    rcases resp with _ | ⟨c0, rest⟩
    · simp at hhead
    · simp only [List.head?_cons, Option.some.injEq] at hhead
      subst hhead
      simp only [parse_response, htag]
      rw [if_neg (by omega)]

/-- C10 witness: one concrete panicking input per condition, under the
sample discriminant table. -/
theorem c10_parse_response_unguarded_witness :
    parse_response sampleTagOf sampleFailureCodeOf [] = none ∧
    parse_response sampleTagOf sampleFailureCodeOf [0x55, 0x00] = none ∧
    parse_response sampleTagOf sampleFailureCodeOf
      [0x83, 0x00, 0x01, 0x02, 0x03] = none ∧
    parse_response sampleTagOf sampleFailureCodeOf [0xA0, 0x00] = none ∧
    parse_response sampleTagOf sampleFailureCodeOf [0x81] = none := by
  refine ⟨(c10_parse_response_unguarded sampleTagOf sampleFailureCodeOf []).1,
    ?_, ?_, ?_, ?_⟩
  · exact (c10_parse_response_unguarded sampleTagOf sampleFailureCodeOf
      [0x55, 0x00]).2.1 0x55 rfl rfl
  · exact (c10_parse_response_unguarded sampleTagOf sampleFailureCodeOf
      [0x83, 0x00, 0x01, 0x02, 0x03]).2.2.1 0x83 rfl rfl (by decide)
  · exact (c10_parse_response_unguarded sampleTagOf sampleFailureCodeOf
      [0xA0, 0x00]).2.2.2.1 0xA0 rfl rfl (by decide)
  · exact (c10_parse_response_unguarded sampleTagOf sampleFailureCodeOf
      [0x81]).2.2.2.2 0x81 rfl rfl (by decide)

end EDBG
